import Mathlib

/-!
Shallow embedding of `ebs_check.py`, a CLI that lists and deletes
unattached EBS volumes.  Python dictionaries returned by the provider SDK
are modelled as structures with `Option` fields wherever the code reads
them with `.get` (so a missing key is `none`); keys the code reads with
`[...]` (which would raise `KeyError` when absent) are modelled as
required fields.  Provider calls are modelled by an explicit environment
(`Env`) holding the volume store at list time, the per-volume fetch
behaviour at delete time, and the raw delete behaviour; the run result
records the sequence of provider API calls that were issued, the
success/failure counters of the delete pass, and the lines printed by the
deletion-logic section of `main` (the listing output of lines 124-206 is
presentation only and is not modelled).
-/

namespace EbsCheck

/-- One element of a volume's `Attachments` list; the code only ever reads
`InstanceId` with `.get`. -/
structure Attachment where
  instanceId : Option String
deriving DecidableEq, Repr

/-- A volume record as returned by `describe_volumes`.  `VolumeId` is read
with `v["VolumeId"]` (required); every other field is read with `.get`. -/
structure Volume where
  volumeId : String
  size : Option Nat
  volumeType : Option String
  availabilityZone : Option String
  state : Option String
  attachments : Option (List Attachment)
  tags : Option (List (String × String))
deriving DecidableEq, Repr

/-- `is_unattached` (ebs_check.py lines 66-72): `True` when
`volume.get("State") == "available"`, otherwise `True` exactly when
`volume.get("Attachments", [])` has length 0. -/
def is_unattached (v : Volume) : Bool :=
  if v.state = some "available" then true
  else (v.attachments.getD []).isEmpty

/-- The STS `get_caller_identity` response: `Account` is read with
`ident["Account"]` (required), `Arn` with `ident.get(...)`. -/
structure Identity where
  account : String
  arn : Option String
deriving DecidableEq, Repr

/-- Python `str.startswith`, modelled on the character list so that it
reduces by structural recursion. -/
def py_startswith (s pre : String) : Bool :=
  pre.data.isPrefixOf s.data

/-- Helper for `py_split`: walk the character list, cutting at each
separator occurrence. -/
def py_split_aux (sep : Char) : List Char → List Char → List String
  | [], acc => [String.mk acc.reverse]
  | c :: cs, acc =>
      if c = sep then String.mk acc.reverse :: py_split_aux sep cs []
      else py_split_aux sep cs (c :: acc)

/-- Python `str.split` with a one-character separator: `"a:b".split(":")`
is `["a", "b"]`, `"arn:"` splits to `["arn", ""]`. -/
def py_split (s : String) (sep : Char) : List String :=
  py_split_aux sep s.data []

/-- `get_identity` (lines 27-35): the identity ARN defaults to
`arn:aws:iam::000000000000:root` when absent; the partition is field 1 of
the ARN split on `:` when the ARN starts with `arn:`, else the literal
`aws`; the account id is always `ident["Account"]`. -/
def get_identity (ident : Identity) : String × String :=
  let arn := ident.arn.getD "arn:aws:iam::000000000000:root"
  let partition :=
    if py_startswith arn "arn:" then (py_split arn ':').getD 1 "" else "aws"
  (partition, ident.account)

/-- `volume_arn` (lines 38-39). -/
def volume_arn (partition region account_id volume_id : String) : String :=
  "arn:" ++ partition ++ ":ec2:" ++ region ++ ":" ++ account_id ++
    ":volume/" ++ volume_id

/-- `describe_all_volumes` (lines 42-50): paginated listing of every
volume in the region; pagination is modelled as returning the whole
store in one list. -/
def describe_all_volumes (store : List Volume) : List Volume := store

/-- `describe_unattached_volumes` (lines 53-61): paginated listing with the
server-side filter `Name=status, Values=[available]`, modelled as keeping
exactly the volumes whose `State` is `available`. -/
def describe_unattached_volumes (store : List Volume) : List Volume :=
  store.filter (fun v => v.state = some "available")

/-- The `Error` member of a `ClientError` response, as read by
`delete_volume` with `.get`. -/
structure AwsError where
  code : String
  msg : String
deriving DecidableEq, Repr

/-- `delete_volume` (lines 75-83): the raw provider call either succeeds
or raises a `ClientError`, which is caught and turned into
`(False, code ++ ": " ++ message)`. -/
def delete_volume (deleteRaw : String → Except AwsError Unit)
    (volume_id : String) : Bool × String :=
  match deleteRaw volume_id with
  | .ok _ => (true, "Deleted")
  | .error e => (false, e.code ++ ": " ++ e.msg)

/-- Outcome of `ec2.describe_volumes(VolumeIds=[vid])` in the pre-delete
re-check: either a `ClientError` is raised, or a list of volumes comes
back. -/
inductive FetchOutcome where
  | err
  | ok (vols : List Volume)
deriving DecidableEq, Repr

/-- A provider API call issued during a run. -/
inductive ApiCall where
  | getCallerIdentity
  | describeAll
  | describeFiltered
  | describeById (vid : String)
  | deleteVol (vid : String)
deriving DecidableEq, Repr

/-- Running state of the delete loop (lines 228-253): the two counters,
the provider calls issued inside the loop, and the lines it prints. -/
structure DeleteState where
  ok_count : Nat
  fail_count : Nat
  calls : List ApiCall
  log : List String
deriving DecidableEq, Repr

/-- One iteration of the delete loop (lines 231-253) on the row with
volume id `vid`: re-fetch the single volume; on a `ClientError`, or when
the response is empty, or when the head volume is no longer unattached,
count a failure and skip; otherwise call `delete_volume` and count its
result. -/
def delete_pass_step (fetch : String → FetchOutcome)
    (deleteRaw : String → Except AwsError Unit)
    (st : DeleteState) (vid : String) : DeleteState :=
  match fetch vid with
  | .err =>
      { st with
        fail_count := st.fail_count + 1
        calls := st.calls ++ [.describeById vid]
        log := st.log ++ ["✗ SKIP " ++ vid ++ ": unable to verify volume status"] }
  | .ok vinfo =>
      match vinfo with
      | [] =>
          { st with
            fail_count := st.fail_count + 1
            calls := st.calls ++ [.describeById vid]
            log := st.log ++ ["✗ SKIP " ++ vid ++ ": volume is no longer unattached"] }
      | v :: _ =>
          if !(is_unattached v) then
            { st with
              fail_count := st.fail_count + 1
              calls := st.calls ++ [.describeById vid]
              log := st.log ++ ["✗ SKIP " ++ vid ++ ": volume is no longer unattached"] }
          else
            let res := delete_volume deleteRaw vid
            if res.1 then
              { st with
                ok_count := st.ok_count + 1
                calls := st.calls ++ [.describeById vid, .deleteVol vid]
                log := st.log ++ ["✓ " ++ vid ++ ": " ++ res.2] }
            else
              { st with
                fail_count := st.fail_count + 1
                calls := st.calls ++ [.describeById vid, .deleteVol vid]
                log := st.log ++ ["✗ " ++ vid ++ ": " ++ res.2] }

/-- The delete loop from an arbitrary starting state. -/
def delete_pass_from (fetch : String → FetchOutcome)
    (deleteRaw : String → Except AwsError Unit)
    (st : DeleteState) (rows : List String) : DeleteState :=
  rows.foldl (delete_pass_step fetch deleteRaw) st

/-- The whole delete loop of `main` over the target row ids, starting from
`ok_count = 0`, `fail_count = 0`. -/
def delete_pass (fetch : String → FetchOutcome)
    (deleteRaw : String → Except AwsError Unit)
    (rows : List String) : DeleteState :=
  delete_pass_from fetch deleteRaw ⟨0, 0, [], []⟩ rows

/-- A row of the report (lines 166-184). -/
structure ReportRow where
  volumeId : String
  arn : String
  sizeGiB : Option Nat
  volType : Option String
  az : Option String
  nameTag : String
deriving DecidableEq, Repr

/-- The `Name` tag lookup of lines 173-174: the tag list becomes a Python
dict (later duplicates win), then `tags.get("Name", "")`. -/
def name_tag (tags : Option (List (String × String))) : String :=
  (tags.getD []).foldl (fun acc t => if t.1 = "Name" then t.2 else acc) ""

/-- Row construction for one volume (lines 167-184). -/
def build_row (partition region account_id : String) (v : Volume) : ReportRow :=
  { volumeId := v.volumeId
    arn := volume_arn partition region account_id v.volumeId
    sizeGiB := v.size
    volType := v.volumeType
    az := v.availabilityZone
    nameTag := name_tag v.tags }

/-- Parsed command-line arguments of `main`. -/
structure Args where
  region : Option String
  dry_run : Bool
  verbose : Bool
  jsonOutput : Bool
deriving DecidableEq, Repr

/-- The external world a run interacts with: the ambient default region of
the credential chain, the STS identity, the volume store at list time, the
per-volume describe behaviour at delete time (which may differ from the
list-time store — the time-of-check/time-of-use window), and the raw
delete behaviour. -/
structure Env where
  ambientRegion : Option String
  identity : Identity
  listStore : List Volume
  fetch : String → FetchOutcome
  deleteRaw : String → Except AwsError Unit

/-- Observable result of a run of `main`: exit code, the provider API
calls issued in order, the report rows, the delete-pass counters, the
lines printed by the deletion-logic section, and the error-stream lines. -/
structure RunResult where
  exitCode : Nat
  calls : List ApiCall
  rows : List ReportRow
  ok_count : Nat
  fail_count : Nat
  log : List String
  stderrLines : List String
deriving DecidableEq, Repr

/-- Python truthiness of the resolved region string at line 114
(`if not region`): `None` or the empty string. -/
def region_falsy : Option String → Bool
  | none => true
  | some s => s = ""

/-- Region resolution of `boto3.Session(region_name=args.region)` at lines
111-113: the explicit `--region` value when given, otherwise the ambient
configured default of the credential chain. -/
def resolve_region (args : Args) (env : Env) : Option String :=
  match args.region with
  | some r => some r
  | none => env.ambientRegion

/-- The deletion-logic section of `main` (lines 208-258), given the rows
built from the listing and the provider calls already issued: the dry-run
branch returns 0 without touching the provider again; an empty row set
returns 0; otherwise the delete loop runs and the exit code is 0 exactly
when `fail_count` is 0. -/
def deletion_logic (args : Args) (env : Env) (preCalls : List ApiCall)
    (rows : List ReportRow) : RunResult :=
  if args.dry_run then
    { exitCode := 0, calls := preCalls, rows := rows,
      ok_count := 0, fail_count := 0,
      log :=
        if !rows.isEmpty then
          ["--dry-run mode: " ++ toString rows.length ++
            " volume(s) listed above (NOT deleted)"]
        else if args.verbose then
          ["--dry-run mode: No unattached volumes to delete"]
        else [],
      stderrLines := [] }
  else if rows.isEmpty then
    { exitCode := 0, calls := preCalls, rows := rows,
      ok_count := 0, fail_count := 0,
      log := if args.verbose then ["No unattached volumes to delete"] else [],
      stderrLines := [] }
  else
    let header :=
      if args.verbose then
        ["⚠️  DELETING " ++ toString rows.length ++ " unattached volume(s)...",
         "This action cannot be undone. Double-checking volumes before deletion..."]
      else
        ["⚠️  DELETING " ++ toString rows.length ++ " unattached volume(s)..."]
    let ds := delete_pass env.fetch env.deleteRaw (rows.map (fun r => r.volumeId))
    { exitCode := if ds.fail_count = 0 then 0 else 1,
      calls := preCalls ++ ds.calls,
      rows := rows,
      ok_count := ds.ok_count, fail_count := ds.fail_count,
      log := header ++ ds.log ++
        ["✅ Summary: deleted=" ++ toString ds.ok_count ++
          " failed/skipped=" ++ toString ds.fail_count] ++
        (if ds.fail_count = 0 then ["All deletions completed successfully."] else []),
      stderrLines := [] }

/-- `main` (lines 86-258).  `boto3.Session(region_name=args.region)`
resolves the region to `args.region` when given, else to the ambient
configured default.  A falsy region exits 2 before any provider call.
Otherwise the identity is fetched, the volumes are listed (all volumes
then filtered through `is_unattached` under `--verbose`, else the
server-side `available` filter), rows are built, and the deletion logic
runs. -/
def run_main (args : Args) (env : Env) : RunResult :=
  let regionOpt := resolve_region args env
  if region_falsy regionOpt then
    { exitCode := 2, calls := [], rows := [], ok_count := 0, fail_count := 0,
      log := [],
      stderrLines :=
        ["ERROR: No region set. Use --region or configure a default region (aws configure)."] }
  else
    let region := regionOpt.getD ""
    let pa := get_identity env.identity
    let volsCalls : List Volume × List ApiCall :=
      if args.verbose then
        ((describe_all_volumes env.listStore).filter is_unattached, [.describeAll])
      else
        (describe_unattached_volumes env.listStore, [.describeFiltered])
    let rows := volsCalls.1.map (build_row pa.1 region pa.2)
    deletion_logic args env ([.getCallerIdentity] ++ volsCalls.2) rows

/-! ### Concrete runs used by the theorems below -/

/-- An unattached volume (state `available`, no attachments). -/
def avail_vol (vid : String) : Volume :=
  ⟨vid, some 8, some "gp3", some "us-east-1a", some "available", some [], none⟩

/-- The delete-time snapshot of `vol-2` after it has become attached. -/
def attached_vol2 : Volume :=
  ⟨"vol-2", some 8, some "gp3", some "us-east-1a", some "in-use",
    some [⟨some "i-0abc"⟩], none⟩

/-- Delete-time fetch for the three-row scenario: `vol-2` has become
attached between listing and deletion; the other volumes are unchanged. -/
def c1_fetch : String → FetchOutcome := fun vid =>
  if vid = "vol-2" then .ok [attached_vol2] else .ok [avail_vol vid]

/-- Environment for the three-row delete pass: three volumes unattached at
list time, `vol-2` attached by delete time, raw deletes succeed. -/
def c1_env : Env :=
  { ambientRegion := none
    identity := ⟨"123456789012", some "arn:aws:iam::123456789012:user/alice"⟩
    listStore := [avail_vol "vol-1", avail_vol "vol-2", avail_vol "vol-3"]
    fetch := c1_fetch
    deleteRaw := fun _ => .ok () }

/-- `--region us-east-1`, no `--dry-run`, no `--verbose`, text output. -/
def c1_args : Args := ⟨some "us-east-1", false, false, false⟩

/-- Environment with a single unattached volume, used for the dry-run. -/
def c4_env : Env :=
  { ambientRegion := none
    identity := ⟨"123456789012", some "arn:aws:iam::123456789012:user/alice"⟩
    listStore := [avail_vol "vol-dry"]
    fetch := fun _ => .ok [avail_vol "vol-dry"]
    deleteRaw := fun _ => .ok () }

/-- `--region us-east-1 --dry-run`. -/
def c4_args : Args := ⟨some "us-east-1", true, false, false⟩

/-- Environment with no ambient default region. -/
def c6_env : Env :=
  { ambientRegion := none
    identity := ⟨"123456789012", none⟩
    listStore := []
    fetch := fun _ => .ok []
    deleteRaw := fun _ => .ok () }

/-- A volume record carrying neither a `State` nor an `Attachments` key. -/
def bare_volume : Volume := ⟨"vol-bare", none, none, none, none, none, none⟩

/-- A volume whose state is not `available` but whose attachment list is
present and empty. -/
def creating_volume : Volume :=
  ⟨"vol-new", some 4, some "gp3", some "us-east-1a", some "creating", some [], none⟩

/-! ### Claims -/

/-- C2: for every volume record `V`, the classification is Unattached
(`is_unattached V = true`) if and only if `V`'s state field equals
`"available"` or `V`'s attachment list (defaulting to empty when the key
is absent) is empty; `is_unattached` is a pure function of the snapshot,
so determinism is definitional. -/
theorem is_unattached_iff_available_or_no_attachments (v : Volume) :
    is_unattached v = true ↔
      (v.state = some "available" ∨ v.attachments.getD [] = []) := by
  unfold is_unattached
  by_cases h : v.state = some "available" <;>
    simp [h, List.isEmpty_iff]

/-- C8: resource-name construction is the pure template
`arn:partition:ec2:region:account:volume/identifier`, a function of the
four inputs, and on partition `aws`, region `us-east-1`, account
`123456789012`, identifier `vol-0123` it yields the expected ARN. -/
theorem volume_arn_template :
    (∀ p r a i, volume_arn p r a i =
      "arn:" ++ p ++ ":ec2:" ++ r ++ ":" ++ a ++ ":volume/" ++ i)
    ∧ volume_arn "aws" "us-east-1" "123456789012" "vol-0123" =
        "arn:aws:ec2:us-east-1:123456789012:volume/vol-0123" :=
  ⟨fun _ _ _ _ => rfl, by decide⟩

/-- C9: `is_unattached` is total over arbitrary volume records; a missing
attachment list behaves exactly like an empty one, a record with neither a
state nor an attachment list is classified unattached, and the delete loop
does invoke the provider delete for such a record. -/
theorem is_unattached_total_on_missing_fields :
    (∀ v : Volume, is_unattached { v with attachments := none } =
        is_unattached { v with attachments := some [] })
    ∧ is_unattached bare_volume = true
    ∧ (delete_pass_step (fun _ => .ok [bare_volume]) (fun _ => .ok ())
        ⟨0, 0, [], []⟩ "vol-bare").calls =
        [.describeById "vol-bare", .deleteVol "vol-bare"] :=
  ⟨fun _ => rfl, by decide, by decide⟩

/-- C10: a state of `available` always classifies as unattached, so every
volume passing the server-side `status = available` filter of
`describe_unattached_volumes` satisfies the classification rule; the
converse fails: a volume with a non-`available` state and an empty
attachment list is classified unattached yet excluded by that filter. -/
theorem available_state_implies_unattached :
    (∀ v : Volume, v.state = some "available" → is_unattached v = true)
    ∧ (∀ (store : List Volume) (v : Volume),
        v ∈ describe_unattached_volumes store → is_unattached v = true)
    ∧ (is_unattached creating_volume = true
        ∧ describe_unattached_volumes [creating_volume] = []) := by
  refine ⟨fun v h => by simp [is_unattached, h], fun store v hv => ?_, by decide, by decide⟩
  have := List.of_mem_filter hv
  simp only [decide_eq_true_eq] at this
  simp [is_unattached, this]

/-- C10 witness: the first conjunct applied to a concrete `available`
volume, and the second to a concrete one-volume store. -/
theorem available_state_implies_unattached_witness :
    is_unattached (avail_vol "vol-w") = true
    ∧ is_unattached (avail_vol "vol-w") = true :=
  ⟨available_state_implies_unattached.1 (avail_vol "vol-w") rfl,
   available_state_implies_unattached.2.1 [avail_vol "vol-w"] (avail_vol "vol-w")
     (by decide)⟩

/-- C7 counterexample: with the identity ARN absent and the `Account`
field equal to `123456789012`, `get_identity` returns the account
`123456789012`, not the sentinel `000000000000` the claim requires. -/
theorem get_identity_sentinel_counterexample :
    get_identity ⟨"123456789012", none⟩ ≠ ("aws", "000000000000") := by
  decide

/-- C7 amended: the ARN `arn:aws:iam::123456789012:user/alice` yields
partition `aws` (the second `:`-field); an absent ARN defaults to the
sentinel ARN `arn:aws:iam::000000000000:root` and a malformed ARN (not
starting with `arn:`) defaults the partition to `aws`; the account id is
always taken from the `Account` field of the identity and is never
defaulted. -/
theorem get_identity_partition_parsing :
    (get_identity ⟨"123456789012", some "arn:aws:iam::123456789012:user/alice"⟩).1
      = "aws"
    ∧ (∀ ident : Identity, ident.arn = none → (get_identity ident).1 = "aws")
    ∧ (∀ (ident : Identity) (a : String), ident.arn = some a →
        py_startswith a "arn:" = false → (get_identity ident).1 = "aws")
    ∧ (∀ ident : Identity, (get_identity ident).2 = ident.account) := by
  refine ⟨by decide, fun ident h => ?_, fun ident a h ha => ?_, fun _ => rfl⟩
  · simp only [get_identity, h]
    decide
  · simp only [get_identity, h, Option.getD_some, ha, Bool.false_eq_true,
      if_false]

/-- C7 amended witness: an absent-ARN identity and a malformed-ARN
identity both parse to partition `aws`, with the account passed through. -/
theorem get_identity_partition_parsing_witness :
    (get_identity ⟨"999999999999", none⟩).1 = "aws"
    ∧ (get_identity ⟨"999999999999", some "bogus"⟩).1 = "aws"
    ∧ (get_identity ⟨"999999999999", none⟩).2 = "999999999999" :=
  ⟨get_identity_partition_parsing.2.1 ⟨"999999999999", none⟩ rfl,
   get_identity_partition_parsing.2.2.1 ⟨"999999999999", some "bogus"⟩ "bogus" rfl
     (by decide),
   get_identity_partition_parsing.2.2.2 ⟨"999999999999", none⟩⟩

/-- Helper: every branch of one delete-loop iteration accounts for exactly
one row in the two counters. -/
theorem delete_pass_step_count (fetch : String → FetchOutcome)
    (draw : String → Except AwsError Unit) (st : DeleteState) (vid : String) :
    (delete_pass_step fetch draw st vid).ok_count
      + (delete_pass_step fetch draw st vid).fail_count
      = st.ok_count + st.fail_count + 1 := by
  unfold delete_pass_step
  cases hf : fetch vid with
  | err => simp; omega
  | ok vinfo =>
    cases vinfo with
    | nil => simp; omega
    | cons v t =>
      by_cases hv : is_unattached v = true
      · simp only [hv, Bool.not_true, Bool.false_eq_true, if_false]
        by_cases hres : (delete_volume draw vid).1 = true
        · rw [if_pos hres]; simp; omega
        · rw [if_neg hres]; simp; omega
      · simp only [Bool.not_eq_true] at hv
        simp only [hv, Bool.not_false, if_true]
        omega

/-- Helper: the delete loop from any starting state visits every row, so
the counters grow by exactly the number of rows. -/
theorem delete_pass_from_count (fetch : String → FetchOutcome)
    (draw : String → Except AwsError Unit) (rows : List String) :
    ∀ st : DeleteState,
    (delete_pass_from fetch draw st rows).ok_count
      + (delete_pass_from fetch draw st rows).fail_count
      = st.ok_count + st.fail_count + rows.length := by
  induction rows with
  | nil => intro st; simp [delete_pass_from]
  | cons r rs ih =>
    intro st
    simp only [delete_pass_from, List.foldl_cons] at ih ⊢
    rw [ih (delete_pass_step fetch draw st r), delete_pass_step_count]
    simp [List.length_cons]
    omega

/-- C1: each delete-loop iteration re-fetches the single volume before any
delete (its calls are the fetch alone, or the fetch followed by the
delete); when the re-fetch raises, returns no volume, or returns a volume
that is no longer unattached, the row is counted as failed and no delete
call is issued for it; and in the concrete three-row pass where `vol-2`
has become attached, the summary is deleted=2, failed/skipped=1 and the
provider delete is never invoked for `vol-2`. -/
theorem delete_pass_two_phase :
    (∀ (fetch : String → FetchOutcome) (draw : String → Except AwsError Unit)
        (st : DeleteState) (vid : String),
      (delete_pass_step fetch draw st vid).calls = st.calls ++ [.describeById vid]
        ∨ (delete_pass_step fetch draw st vid).calls =
            st.calls ++ [.describeById vid, .deleteVol vid])
    ∧ (∀ (fetch : String → FetchOutcome) (draw : String → Except AwsError Unit)
        (st : DeleteState) (vid : String),
      (fetch vid = .err ∨ fetch vid = .ok [] ∨
        ∃ v t, fetch vid = .ok (v :: t) ∧ is_unattached v = false) →
      (delete_pass_step fetch draw st vid).ok_count = st.ok_count
        ∧ (delete_pass_step fetch draw st vid).fail_count = st.fail_count + 1
        ∧ (delete_pass_step fetch draw st vid).calls = st.calls ++ [.describeById vid])
    ∧ ((run_main c1_args c1_env).ok_count = 2
        ∧ (run_main c1_args c1_env).fail_count = 1
        ∧ ApiCall.deleteVol "vol-2" ∉ (run_main c1_args c1_env).calls) := by
  refine ⟨?_, ?_, ?_⟩
  · intro fetch draw st vid
    unfold delete_pass_step
    cases hf : fetch vid with
    | err => exact Or.inl rfl
    | ok vinfo =>
      cases vinfo with
      | nil => exact Or.inl rfl
      | cons v t =>
        by_cases hv : is_unattached v = true
        · simp only [hv, Bool.not_true, Bool.false_eq_true, if_false]
          by_cases hres : (delete_volume draw vid).1 = true
          · rw [if_pos hres]; exact Or.inr rfl
          · rw [if_neg hres]; exact Or.inr rfl
        · simp only [Bool.not_eq_true] at hv
          simp only [hv, Bool.not_false, if_true]
          exact Or.inl trivial
  · intro fetch draw st vid h
    rcases h with h | h | ⟨v, t, h, hv⟩
    · simp [delete_pass_step, h]
    · simp [delete_pass_step, h]
    · simp [delete_pass_step, h, hv]
  · refine ⟨by decide, by decide, by decide⟩

/-- C1 witness: the skip branch applied to a concrete failing fetch. -/
theorem delete_pass_two_phase_witness :
    (delete_pass_step (fun _ => FetchOutcome.err) (fun _ => .ok ())
      ⟨0, 0, [], []⟩ "vol-9").fail_count = 0 + 1 :=
  (delete_pass_two_phase.2.1 (fun _ => FetchOutcome.err) (fun _ => .ok ())
    ⟨0, 0, [], []⟩ "vol-9" (Or.inl rfl)).2.1

/-- C3: after a delete pass (region resolved, not dry-run) the exit code
is 0 exactly when the failed/skipped counter is 0 (every attempted
deletion succeeded, or there was nothing to delete), and 1 as soon as at
least one volume failed or was skipped. -/
theorem exit_code_matches_failures (args : Args) (env : Env)
    (h1 : args.dry_run = false)
    (h2 : region_falsy (resolve_region args env) = false) :
    ((run_main args env).exitCode = 0 ↔ (run_main args env).fail_count = 0)
    ∧ ((run_main args env).fail_count ≠ 0 → (run_main args env).exitCode = 1) := by
  have key : ∀ (preCalls : List ApiCall) (rows : List ReportRow),
      ((deletion_logic args env preCalls rows).exitCode = 0 ↔
        (deletion_logic args env preCalls rows).fail_count = 0)
      ∧ ((deletion_logic args env preCalls rows).fail_count ≠ 0 →
        (deletion_logic args env preCalls rows).exitCode = 1) := by
    intro preCalls rows
    unfold deletion_logic
    simp only [h1, Bool.false_eq_true, if_false]
    split
    · simp
    · split <;> simp_all
  unfold run_main
  simp only [h2, Bool.false_eq_true, if_false]
  exact key _ _

/-- C3 witness: the exit-code law applied to the concrete three-row
delete pass. -/
theorem exit_code_matches_failures_witness :
    ((run_main c1_args c1_env).exitCode = 0 ↔ (run_main c1_args c1_env).fail_count = 0)
    ∧ ((run_main c1_args c1_env).fail_count ≠ 0 → (run_main c1_args c1_env).exitCode = 1) :=
  exit_code_matches_failures c1_args c1_env rfl rfl

/-- C4 counterexample: in a dry run over one unattached target the program
issues no deletion call at all (not even a validate-only one): the call
trace holds only the identity and listing calls, and the printed message
is `NOT deleted`, not a per-volume would-delete success. -/
theorem dry_run_issues_no_delete_call :
    (run_main c4_args c4_env).rows.length = 1
    ∧ ApiCall.deleteVol "vol-dry" ∉ (run_main c4_args c4_env).calls
    ∧ (run_main c4_args c4_env).calls = [.getCallerIdentity, .describeFiltered]
    ∧ (run_main c4_args c4_env).log =
        ["--dry-run mode: 1 volume(s) listed above (NOT deleted)"]
    ∧ (run_main c4_args c4_env).exitCode = 0 := by
  refine ⟨by decide, by decide, by decide, by decide, by decide⟩

/-- C4 amended: when dry-run mode is selected the program performs no
deletion call of any kind and no pre-delete re-fetch; it only lists the
targets, reports them as NOT deleted, leaves the volume store unmodified
(zero delete calls), and exits 0. -/
theorem dry_run_performs_no_mutation (args : Args) (env : Env)
    (h1 : args.dry_run = true)
    (h2 : region_falsy (resolve_region args env) = false) :
    (run_main args env).exitCode = 0
    ∧ (∀ vid, ApiCall.deleteVol vid ∉ (run_main args env).calls)
    ∧ (∀ vid, ApiCall.describeById vid ∉ (run_main args env).calls)
    ∧ (run_main args env).ok_count = 0
    ∧ (run_main args env).fail_count = 0 := by
  unfold run_main deletion_logic
  simp only [h2, Bool.false_eq_true, if_false, h1, if_true]
  by_cases hv : args.verbose = true <;> simp [hv]

/-- C4 amended witness: the dry-run law applied to the concrete one-volume
environment. -/
theorem dry_run_performs_no_mutation_witness :
    (run_main c4_args c4_env).exitCode = 0
    ∧ (∀ vid, ApiCall.deleteVol vid ∉ (run_main c4_args c4_env).calls)
    ∧ (∀ vid, ApiCall.describeById vid ∉ (run_main c4_args c4_env).calls)
    ∧ (run_main c4_args c4_env).ok_count = 0
    ∧ (run_main c4_args c4_env).fail_count = 0 :=
  dry_run_performs_no_mutation c4_args c4_env rfl rfl

/-- C5: the delete loop has partial-failure semantics: every row is
processed exactly once (the counters sum to the number of rows, for any
fetch and delete behaviour, so no per-volume error aborts the batch); a
`ClientError` in the re-fetch becomes a recorded skip for that volume
only, and a `ClientError` in the delete becomes a recorded failure for
that volume only, with the loop state otherwise unchanged. -/
theorem per_volume_fault_isolation :
    (∀ (fetch : String → FetchOutcome) (draw : String → Except AwsError Unit)
        (rows : List String),
      (delete_pass fetch draw rows).ok_count
        + (delete_pass fetch draw rows).fail_count = rows.length)
    ∧ (∀ (fetch : String → FetchOutcome) (draw : String → Except AwsError Unit)
        (st : DeleteState) (vid : String), fetch vid = .err →
        delete_pass_step fetch draw st vid =
          { st with
            fail_count := st.fail_count + 1
            calls := st.calls ++ [.describeById vid]
            log := st.log ++ ["✗ SKIP " ++ vid ++ ": unable to verify volume status"] })
    ∧ (∀ (fetch : String → FetchOutcome) (draw : String → Except AwsError Unit)
        (st : DeleteState) (vid : String) (v : Volume) (t : List Volume) (e : AwsError),
        fetch vid = .ok (v :: t) → is_unattached v = true → draw vid = .error e →
        delete_pass_step fetch draw st vid =
          { st with
            fail_count := st.fail_count + 1
            calls := st.calls ++ [.describeById vid, .deleteVol vid]
            log := st.log ++ ["✗ " ++ vid ++ ": " ++ (e.code ++ ": " ++ e.msg)] }) := by
  refine ⟨?_, ?_, ?_⟩
  · intro fetch draw rows
    have h := delete_pass_from_count fetch draw rows ⟨0, 0, [], []⟩
    simpa [delete_pass] using h
  · intro fetch draw st vid h
    simp [delete_pass_step, h]
  · intro fetch draw st vid v t e hf hv hd
    simp [delete_pass_step, hf, hv, delete_volume, hd]

/-- C5 witness: the fetch-failure branch applied to a concrete state. -/
theorem per_volume_fault_isolation_witness :
    delete_pass_step (fun _ => FetchOutcome.err) (fun _ => .ok ())
        ⟨0, 0, [], []⟩ "vol-5" =
      ⟨0, 1, [.describeById "vol-5"],
        ["✗ SKIP vol-5: unable to verify volume status"]⟩ :=
  per_volume_fault_isolation.2.1 (fun _ => FetchOutcome.err) (fun _ => .ok ())
    ⟨0, 0, [], []⟩ "vol-5" rfl

/-- C6: with no `--region` argument and no ambient default region, `main`
prints the region error to the error stream and returns exit code 2
having issued no provider API call. -/
theorem missing_region_exits_two (args : Args) (env : Env)
    (h1 : args.region = none) (h2 : env.ambientRegion = none) :
    (run_main args env).exitCode = 2
    ∧ (run_main args env).calls = []
    ∧ (run_main args env).stderrLines =
        ["ERROR: No region set. Use --region or configure a default region (aws configure)."] := by
  unfold run_main resolve_region
  rw [h1, h2]
  exact ⟨rfl, rfl, rfl⟩

/-- C6 witness: the missing-region law at a concrete argument vector and
environment. -/
theorem missing_region_exits_two_witness :
    (run_main ⟨none, false, false, false⟩ c6_env).exitCode = 2
    ∧ (run_main ⟨none, false, false, false⟩ c6_env).calls = []
    ∧ (run_main ⟨none, false, false, false⟩ c6_env).stderrLines =
        ["ERROR: No region set. Use --region or configure a default region (aws configure)."] :=
  missing_region_exits_two ⟨none, false, false, false⟩ c6_env rfl rfl

end EbsCheck
